import Mathlib

/-!
# ThreatCanvas log-processing pipeline: a shallow embedding

This file embeds the core of `threatcanvas/processor.py` (class `LogProcessor`)
and `threatcanvas/memory.py` in Lean 4 and settles the specification claims
about it.

Modelling conventions:
* A pandas `DataFrame` of access-log rows is a `List Row`.
* The `timestamp` column cell is a `TsCell`: either a raw CSV string (object
  dtype) paired with the instant it denotes, or a parsed `datetime64` value.
  `pd.to_datetime` replaces the representation (dtype change) but not the
  denoted instant; instants are epoch seconds as `Int` (the CSV format has
  second precision).
* Python `float` arithmetic is modelled by exact rationals `ℚ`; `int(x)` on a
  non-negative value is `Int.floor`; `round(x, 1)` is round-half-to-even of
  `10 * x`, divided by `10`.
* Exceptions are `Except Unit` / `Option`; a caught exception is a `none` /
  `.error` branch, and a function that cannot raise is total.
* The external collaborators (Azure chat model via langchain, mem0 memory
  store) are oracles passed in as a `Collaborators` record.  The model reply
  is modelled post-JSON-decoding as `Option Json`: `none` stands for a reply
  in which `parse_json_markdown` finds no decodable JSON (an
  `OutputParserException`).  Note that langchain's `JsonOutputParser`, even
  when constructed with `pydantic_object=ThreatPrediction`, performs **no**
  schema validation: the `pydantic_object` is used only to build format
  instructions, so the decoded JSON flows through unvalidated.
-/

namespace ThreatCanvas

/-- A cell of the `timestamp` column.  `str rep t` is a raw CSV string `rep`
(object dtype) denoting the instant `t` (epoch seconds); `dt t` is a parsed
`datetime64` cell.  `pd.to_datetime` turns the former into the latter. -/
inductive TsCell : Type
  | str (rep : String) (t : Int)
  | dt (t : Int)
deriving DecidableEq, Repr

/-- `pd.to_datetime` on one cell: parse a raw string, keep a datetime. -/
def TsCell.toDatetime : TsCell → TsCell
  | .str _ t => .dt t
  | .dt t => .dt t

/-- The instant a cell denotes, regardless of representation. -/
def TsCell.instant : TsCell → Int
  | .str _ t => t
  | .dt t => t

/-- `.strftime` / timedelta arithmetic requires a datetime cell; on a raw
string it raises (`AttributeError`), modelled as `Except.error`. -/
def TsCell.asDatetime : TsCell → Except Unit Int
  | .str _ _ => .error ()
  | .dt t => .ok t

/-- One access-log row, the columns of the source CSV
(`ip, timestamp, method, path, protocol, status, bytes_sent, referer, user_agent`). -/
structure Row : Type where
  ip : String
  timestamp : TsCell
  method : String
  path : String
  protocol : String
  status : Int
  bytes_sent : Int
  referer : String
  user_agent : String
deriving DecidableEq, Repr

/-- The dict returned by `LogProcessor.calculate_metrics`:
`requests_per_second` is wrapped in `int(...)`, `error_rate` is a float
rounded to one decimal, `unique_ips` a count. -/
structure MetricsRecord : Type where
  requests_per_second : Int
  error_rate : ℚ
  unique_ips : Nat
deriving DecidableEq, Repr

/-- `Series.max` (`none` on an empty column, matching `NaT`). -/
def listMax : List Int → Option Int
  | [] => none
  | x :: xs => some (xs.foldl max x)

/-- `Series.min` (`none` on an empty column, matching `NaT`). -/
def listMin : List Int → Option Int
  | [] => none
  | x :: xs => some (xs.foldl min x)

/-- Distinct values in first-encounter order (pandas `Series.unique`). -/
def firstSeen {α : Type} [DecidableEq α] (l : List α) : List α :=
  l.foldl (fun acc x => if x ∈ acc then acc else acc ++ [x]) []

/-- Python 3 `round` to the nearest integer: round half to even. -/
def pyRoundInt (q : ℚ) : Int :=
  let f := ⌊q⌋
  let r := q - f
  if r < 1 / 2 then f
  else if 1 / 2 < r then f + 1
  else if Even f then f else f + 1

/-- Python `round(x, 1)`: one decimal place, half to even.  (Exact-rational
model of the float computation.) -/
def round1 (q : ℚ) : ℚ := (pyRoundInt (10 * q) : ℚ) / 10

/-- `LogProcessor.calculate_metrics`, returning the metrics dict **and** the
frame as the caller sees it afterwards: the first statement
`df['timestamp'] = pd.to_datetime(df['timestamp'])` assigns into the caller's
DataFrame, so the mutated frame is part of the observable result.

* `time_diff` is `(max - min).total_seconds()`; on an empty frame max/min are
  `NaT` and `total_seconds` gives `nan`, for which `nan > 0` is false, so the
  `else`-branch value `1` is taken — modelled by `Option` with the `none`
  case mapping to `1`.
* `requests_per_second` is truncated by `int(...)` in the returned dict.
* `success_count` counts statuses in `[200, 299]`; everything else (including
  1xx and 3xx) lands in the error rate.
* `unique_ips` is `df['ip'].nunique()`. -/
def calculate_metrics (df : List Row) : MetricsRecord × List Row :=
  let df2 := df.map fun r => { r with timestamp := r.timestamp.toDatetime }
  let instants := df2.map fun r => r.timestamp.instant
  let time_diff : Option Int :=
    match listMax instants, listMin instants with
    | some a, some b => some (a - b)
    | _, _ => none
  let n : ℚ := (df2.length : ℚ)
  let requests_per_second : ℚ :=
    match time_diff with
    | some d => if 0 < d then n / (d : ℚ) else 1
    | none => 1
  let success_count := (df2.filter fun r => decide (200 ≤ r.status ∧ r.status ≤ 299)).length
  let error_rate : ℚ :=
    if 0 < df2.length then ((n - (success_count : ℚ)) / n) * 100 else 0
  let unique_ips := (firstSeen (df2.map fun r => r.ip)).length
  (⟨⌊requests_per_second⌋, round1 error_rate, unique_ips⟩, df2)

/-- The span in seconds between the latest and earliest instants denoted by
the rows' timestamps (independent of cell representation); `0` for an empty
frame.  Used to state claims about `calculate_metrics`. -/
def specSpan (df : List Row) : Int :=
  match listMax (df.map fun r => r.timestamp.instant),
        listMin (df.map fun r => r.timestamp.instant) with
  | some a, some b => a - b
  | _, _ => 0

/-- Rows whose status is an HTTP error in the spec's sense: in `[400, 599]`. -/
def errorRows400to599 (df : List Row) : Nat :=
  (df.filter fun r => decide (400 ≤ r.status ∧ r.status ≤ 599)).length

/-- Rows whose status lies outside the success band `[200, 299]`. -/
def rowsOutsideSuccess (df : List Row) : Nat :=
  (df.filter fun r => decide (r.status < 200 ∨ 299 < r.status)).length

/-- A generic well-formed row used to build concrete frames. -/
def mkRow (ip : String) (ts : TsCell) (status : Int) : Row :=
  ⟨ip, ts, "GET", "/index", "HTTP/1.1", status, 512, "-", "Mozilla/5.0"⟩

/-- The mutable cursor state of `LogProcessor`: `__init__` sets
`current_index = 0`, `batch_size = 10`, `current_batch_id = 0`. -/
structure CursorState : Type where
  current_index : Nat
  batch_size : Nat
  current_batch_id : Nat
deriving DecidableEq, Repr

/-- The state `LogProcessor.__init__` creates. -/
def initCursor : CursorState := ⟨0, 10, 0⟩

/-- `LogProcessor.get_next_batch`: the CSV is re-read on every call (`rows` is
the file's contents at call time), the batch is `df.iloc[idx : idx + batch_size]`,
the index advances by `batch_size` and wraps to `0` once it reaches or passes
the row count, and the batch id increments. -/
def get_next_batch (rows : List Row) (s : CursorState) : List Row × CursorState :=
  let batch := (rows.drop s.current_index).take s.batch_size
  let idx := s.current_index + s.batch_size
  ⟨batch,
    { s with
      current_index := if rows.length ≤ idx then 0 else idx,
      current_batch_id := s.current_batch_id + 1 }⟩

/-- The cursor state after `k` successive `get_next_batch` calls over a fixed
source file. -/
def cursorIter (rows : List Row) : Nat → CursorState
  | 0 => initCursor
  | k + 1 => (get_next_batch rows (cursorIter rows k)).2

/-- A decoded JSON value — the output of langchain's `parse_json_markdown` on
the model's raw reply.  Numbers are exact rationals. -/
inductive Json : Type
  | null
  | bool (b : Bool)
  | num (q : ℚ)
  | str (s : String)
  | arr (elems : List Json)
  | obj (fields : List (String × Json))

/-- Python dict lookup `d[key]` (`none` models a `KeyError`). -/
def lookupField : List (String × Json) → String → Option Json
  | [], _ => none
  | (k, v) :: rest, key => if k = key then some v else lookupField rest key

/-- Python dict item assignment `d[key] = v`: replace in place, else append. -/
def setField : List (String × Json) → String → Json → List (String × Json)
  | [], key, v => [(key, v)]
  | (k, w) :: rest, key, v =>
    if k = key then (key, v) :: rest else (k, w) :: setField rest key v

/-- `j[key]` on a decoded value: only dicts support string indexing; on any
other value Python raises (`TypeError`/`KeyError`), modelled as `none`. -/
def Json.getField : Json → String → Option Json
  | .obj fields, key => lookupField fields key
  | _, _ => none

/-- The `prediction` label of a record, when it is present and a string. -/
def predictionOf (j : Json) : Option String :=
  match j.getField "prediction" with
  | some (.str s) => some s
  | _ => none

/-- A raised `KeyError` on a missing dict key. -/
def exceptOfOption {α : Type} : Option α → Except Unit α
  | some a => .ok a
  | none => .error ()

/-- One role/content chat message (the dicts built in `memory.py`). -/
structure ChatMsg : Type where
  role : String
  content : String
deriving DecidableEq, Repr

/-- One hit returned by the memory collaborator's `search` (`{"memory": ...}`
in the mem0 API). -/
structure MemHit : Type where
  memory : String
deriving DecidableEq, Repr

/-- `Series.value_counts().to_dict()`: distinct values with their counts,
most frequent first (stable for ties). -/
def valueCounts {α : Type} [DecidableEq α] (xs : List α) : List (α × Nat) :=
  List.insertionSort (fun a b => b.2 ≤ a.2) ((firstSeen xs).map fun v => (v, xs.count v))

/-- The per-group summary dict built by `create_log_summary`.  The
`json.dumps` serialisation is elided: the collaborator receives the structured
content.  `time_window` keeps the min/max instants; the `strftime` text
formatting is elided. -/
structure GroupSummary : Type where
  ip : String
  methodCounts : List (String × Nat)
  paths : List String
  statusCounts : List (Int × Nat)
  user_agent : String
  request_count : Nat
  timeStart : Int
  timeEnd : Int
deriving DecidableEq, Repr

/-- `.min()`/`.max()` then `.strftime(...)` over the timestamp column: raises
unless every cell is a parsed datetime (in `process_logs` they are, because
`calculate_metrics` converted the column in place beforehand). -/
def cellsAsDatetimes : List TsCell → Except Unit (List Int)
  | [] => .ok []
  | c :: cs =>
    match c.asDatetime, cellsAsDatetimes cs with
    | .ok t, .ok ts => .ok (t :: ts)
    | _, _ => .error ()

/-- `create_log_summary` inside `analyze_patterns`: summarise one group.  An
empty group (impossible: `groupby` groups are non-empty) would raise on
`iloc[0]`; raw-string timestamp cells raise on `strftime`.  A raise is
`Except.error` and is caught by the per-group handler. -/
def create_log_summary (group : List Row) : Except Unit GroupSummary :=
  match group with
  | [] => .error ()
  | g0 :: _ =>
    match cellsAsDatetimes (group.map fun r => r.timestamp) with
    | .error e => .error e
    | .ok insts =>
      match listMin insts, listMax insts with
      | some tmin, some tmax =>
        .ok
          { ip := g0.ip
            methodCounts := valueCounts (group.map fun r => r.method)
            paths := firstSeen (group.map fun r => r.path)
            statusCounts := valueCounts (group.map fun r => r.status)
            user_agent := g0.user_agent
            request_count := group.length
            timeStart := tmin
            timeEnd := tmax }
      | _, _ => .error ()

/-- The external collaborators of `analyze_patterns`, passed as oracles:
`search`/`add` are the mem0 client calls of `memory.py` (`Except.error`
models the call raising), and `llmReply` is the chat-model invocation composed
with langchain's JSON extraction — it receives the group summary and the
retrieved context and yields the decoded JSON of the model's reply, or `none`
when the reply holds no decodable JSON (`OutputParserException`).  langchain's
`JsonOutputParser(pydantic_object=ThreatPrediction)` performs no schema
validation, so whatever JSON decodes is passed through as-is. -/
structure Collaborators : Type where
  search : String → String → Except Unit (List MemHit)
  llmReply : GroupSummary → List ChatMsg → Option Json
  add : List ChatMsg → String → Except Unit Unit

/-- `memory.retrieve_context`: searches mem0, joins the hit texts, and wraps
them into a two-message context; a raise from `search` propagates to the
caller (there is no handler inside this function). -/
def retrieve_context (C : Collaborators) (query : String) (user_id : String) :
    Except Unit (List ChatMsg) :=
  match C.search query user_id with
  | .error e => .error e
  | .ok memories =>
    let serialized := String.intercalate " " (memories.map fun m => m.memory)
    .ok
      [ ⟨"system", "Previous relevant log details: " ++ serialized⟩,
        ⟨"user", "current logs information:" ++ query⟩ ]

/-- `memory.save_interaction`: wraps the two texts and calls mem0 `add`. -/
def save_interaction (C : Collaborators) (user_id user_input assistant_response : String) :
    Except Unit Unit :=
  C.add [⟨"user", user_input⟩, ⟨"assistant", assistant_response⟩] user_id

/-- The value stored by `response['timestamp'] = group['timestamp'].iloc[0]`:
the cell's current content (a datetime, or the raw string if the column was
never converted). -/
def TsCell.toJson : TsCell → Json
  | .str rep _ => .str rep
  | .dt t => .num (t : ℚ)

/-- Python `str(...)` of a decoded value, as interpolated into the f-strings
that build `save_interaction`'s arguments.  Container renderings are
abbreviated — the text only flows into the best-effort memory write, and no
claim observes it. -/
def Json.display : Json → String
  | .null => "None"
  | .bool b => if b then "True" else "False"
  | .num q => toString q.num
  | .str s => s
  | .arr _ => "[...]"
  | .obj _ => "(dict)"

/-- The body of the per-group `try` block in `analyze_patterns`, including the
effect of its `except` clause: the result is `some response` exactly when the
record was appended to `patterns`.  Any raise **before** the
`patterns.append(response)` line (summary building, context retrieval, model
call, JSON extraction, the `response['timestamp']` assignment) skips the
group; a raise **after** it — a `KeyError` while building the
`save_interaction` arguments, or a failing memory write — is caught, but the
record stays appended. -/
def processGroup (C : Collaborators) (user_id : String) (group : List Row) : Option Json :=
  match group with
  | [] => none
  | g0 :: _ =>
    match create_log_summary group with
    | .error _ => none
    | .ok log_summary =>
      match retrieve_context C
          ("Previous log summary, IP: " ++ g0.ip ++ ", User Agent: " ++ g0.user_agent
            ++ ", Method: " ++ g0.method) user_id with
      | .error _ => none
      | .ok context =>
        match C.llmReply log_summary context with
        | none => none
        | some reply =>
          match reply with
          | .obj fields =>
            let response := Json.obj (setField fields "timestamp" g0.timestamp.toJson)
            let _saved : Except Unit Unit := do
              let pred ← exceptOfOption (response.getField "prediction")
              let reasoning ← exceptOfOption (response.getField "reasoning")
              let desc ← exceptOfOption (reasoning.getField "description")
              save_interaction C user_id
                ("Log Summary- IP: " ++ g0.ip ++ ", User Agent: " ++ g0.user_agent
                  ++ ", Method: " ++ g0.method ++ ", Status: " ++ toString g0.status)
                ("Prediction: " ++ pred.display ++ ", Reasoning: " ++ desc.display)
            some response
          | _ => none

/-- The iteration order of `df.groupby('ip')`: pandas sorts the group keys
ascending by default (`sort=True`). -/
def groupbyKeys (df : List Row) : List String :=
  List.insertionSort (fun a b => a ≤ b) (firstSeen (df.map fun r => r.ip))

/-- One iteration of the `for _, group in df.groupby('ip')` loop: the key's
group either appends its record to `patterns` or is skipped. -/
def stepGroup (C : Collaborators) (user_id : String) (df : List Row)
    (patterns : List Json) (key : String) : List Json :=
  match processGroup C user_id (df.filter fun r => r.ip == key) with
  | some response => patterns ++ [response]
  | none => patterns

/-- The `for _, group in df.groupby('ip')` loop of `analyze_patterns`, run
over an explicit key order. -/
def analyzePatternsOn (C : Collaborators) (user_id : String) (df : List Row)
    (keys : List String) : List Json :=
  keys.foldl (stepGroup C user_id df) []

/-- `LogProcessor.analyze_patterns`: group the frame by source address (pandas
key order) and classify each group via the collaborators.  Total — no
exception escapes, every per-group raise is caught by the loop's `except`. -/
def analyze_patterns (C : Collaborators) (user_id : String) (df : List Row) : List Json :=
  analyzePatternsOn C user_id df (groupbyKeys df)

/-- `LogProcessor.process_logs`: one monitoring tick over the current file
contents — draw the next batch, compute metrics (converting the batch's
timestamp column in place), classify the converted batch. -/
def process_logs (C : Collaborators) (rows : List Row) (s : CursorState)
    (user_id : String) : (MetricsRecord × List Json) × CursorState :=
  let drawn := get_next_batch rows s
  let computed := calculate_metrics drawn.1
  ((computed.1, analyze_patterns C user_id computed.2), drawn.2)

/-- The `ThreatPrediction` pydantic schema as a predicate on decoded JSON:
`prediction` must match `^(normal|abnormal)$`; `reasoning` needs
`pattern_type`, `description`, a `confidence` in `[0, 100]` and a list of
`indicators`; `metrics` needs numeric `requests_per_second` and
`time_window_seconds`.  The code declares this model but hands it to a parser
that never checks it. -/
def validThreatPrediction (j : Json) : Bool :=
  match j.getField "prediction", j.getField "reasoning", j.getField "metrics" with
  | some (.str p), some (.obj rs), some (.obj ms) =>
    (p == "normal" || p == "abnormal")
    && (match lookupField rs "pattern_type", lookupField rs "description",
              lookupField rs "confidence", lookupField rs "indicators" with
        | some (.str _), some (.str _), some (.num c), some (.arr xs) =>
          decide (0 ≤ c) && decide (c ≤ 100)
            && xs.all fun x => match x with | .str _ => true | _ => false
        | _, _, _, _ => false)
    && (match lookupField ms "requests_per_second",
              lookupField ms "time_window_seconds" with
        | some (.num _), some (.num _) => true
        | _, _ => false)
  | _, _, _ => false

/-- Collaborators whose memory calls succeed trivially and whose model reply
is the constant decoded value `j` for every group. -/
def constReply (j : Json) : Collaborators :=
  ⟨fun _ _ => .ok [], fun _ _ => some j, fun _ _ => .ok ()⟩

/-- Collaborators whose model reply contains no decodable JSON, ever. -/
def noJsonReply : Collaborators :=
  ⟨fun _ _ => .ok [], fun _ _ => none, fun _ _ => .ok ()⟩

/-- Collaborators whose memory `search` raises, while the model reply is the
constant decoded value `j` (the model call itself succeeds). -/
def failingSearch (j : Json) : Collaborators :=
  ⟨fun _ _ => .error (), fun _ _ => some j, fun _ _ => .ok ()⟩

/-- Collaborators whose model reply echoes the group's source address back as
the prediction label, so each returned record names its group. -/
def echoIpReply : Collaborators :=
  ⟨fun _ _ => .ok [], fun s _ => some (Json.obj [("prediction", Json.str s.ip)]),
    fun _ _ => .ok ()⟩

/-- A fully schema-conforming decoded reply (label `"normal"`). -/
def goodPrediction : Json :=
  Json.obj
    [("prediction", Json.str "normal"),
     ("reasoning",
       Json.obj
        [("pattern_type", Json.str "steady traffic"),
         ("description", Json.str "regular browsing"),
         ("confidence", Json.num 90),
         ("indicators", Json.arr [Json.str "uniform rate"])]),
     ("metrics",
       Json.obj
        [("requests_per_second", Json.num 1),
         ("time_window_seconds", Json.num 10)])]

/-- A decoded reply that is schema-conforming **except** that its prediction
label `"maybe"` falls outside the `normal`/`abnormal` enumeration. -/
def badPrediction : Json :=
  Json.obj
    [("prediction", Json.str "maybe"),
     ("reasoning",
       Json.obj
        [("pattern_type", Json.str "probe"),
         ("description", Json.str "odd but unclear"),
         ("confidence", Json.num 50),
         ("indicators", Json.arr [Json.str "mixed statuses"])]),
     ("metrics",
       Json.obj
        [("requests_per_second", Json.num 1),
         ("time_window_seconds", Json.num 10)])]

/-- A decoded reply carrying only a label: `reasoning` and `metrics` are
missing entirely (half-populated). -/
def halfPrediction : Json :=
  Json.obj [("prediction", Json.str "normal")]

/-- A one-row frame (source address `"a"`, already-converted timestamp). -/
def dfOne : List Row := [mkRow "a" (.dt 0) 200]

/-- A two-row frame whose addresses are first seen in the order `b`, `a`. -/
def dfTwo : List Row := [mkRow "b" (.dt 100) 200, mkRow "a" (.dt 200) 200]

/-- The summary `create_log_summary` builds for `dfOne`. -/
def sumOne : GroupSummary :=
  { ip := "a"
    methodCounts := [("GET", 1)]
    paths := ["/index"]
    statusCounts := [(200, 1)]
    user_agent := "Mozilla/5.0"
    request_count := 1
    timeStart := 0
    timeEnd := 0 }

/-- Converting a cell does not change the instant it denotes. -/
theorem instant_toDatetime (c : TsCell) : c.toDatetime.instant = c.instant := by
  cases c <;> rfl

/-- Conversion is idempotent: a datetime cell converts to itself. -/
theorem toDatetime_toDatetime (c : TsCell) : c.toDatetime.toDatetime = c.toDatetime := by
  cases c <;> rfl

/-- The column of instants is unchanged by the in-place `to_datetime` step. -/
theorem map_instant_convert (df : List Row) :
    ((df.map fun r => { r with timestamp := r.timestamp.toDatetime }).map
        fun r => r.timestamp.instant)
      = df.map fun r => r.timestamp.instant := by
  induction df with
  | nil => rfl
  | cons r rs ih => simp [ih, instant_toDatetime]

/-- A filter that inspects only the status column is unaffected by the
timestamp conversion. -/
theorem status_filter_convert (df : List Row) (p : Int → Bool) :
    ((df.map fun r => { r with timestamp := r.timestamp.toDatetime }).filter
        fun r => p r.status).length
      = (df.filter fun r => p r.status).length := by
  induction df with
  | nil => rfl
  | cons r rs ih =>
    by_cases hp : p r.status
    · simp [List.filter_cons, hp, ih]
    · simp [List.filter_cons, hp, ih]

/-- Lying outside `[200, 299]` is the boolean complement of lying inside. -/
theorem outside_eq_not_success (s : Int) :
    decide (s < 200 ∨ 299 < s) = !decide (200 ≤ s ∧ s ≤ 299) := by
  rw [← decide_not, decide_eq_decide]
  omega

/-- C1 counterexample: the claim's requests-per-second formula fails on the
code.  A batch of two rows 10 seconds apart returns `int(2 / 10) = 0`, not
`0.2`; a batch of three rows with identical timestamps returns `1`, not the
row count `3`. -/
theorem rps_claim_counterexample :
    ((calculate_metrics [mkRow "a" (.dt 0) 200, mkRow "b" (.dt 10) 200]).1.requests_per_second
        : ℚ) ≠ 2 / 10
    ∧ (calculate_metrics
          [mkRow "a" (.dt 5) 200, mkRow "b" (.dt 5) 200, mkRow "c" (.dt 5) 200]
        ).1.requests_per_second ≠ 3 := by
  constructor
  · norm_num [calculate_metrics, listMax, listMin, firstSeen, TsCell.toDatetime, TsCell.instant,
      round1, pyRoundInt, mkRow]
  · norm_num [calculate_metrics, listMax, listMin, firstSeen, TsCell.toDatetime, TsCell.instant,
      round1, pyRoundInt, mkRow]

/-- C1 (amended): for every non-empty batch, the `requests_per_second` value is
the **integer truncation** of row count divided by the span in seconds between
the batch's maximum and minimum timestamps when that span is positive, and is
the constant `1` (not the row count) when the span is zero. -/
theorem rps_truncated_or_one (df : List Row) (h : df ≠ []) :
    (calculate_metrics df).1.requests_per_second =
      if 0 < specSpan df then ⌊(df.length : ℚ) / (specSpan df : ℚ)⌋ else 1 := by
  cases df with
  | nil => exact absurd rfl h
  | cons r rs =>
    simp only [calculate_metrics, specSpan]
    rw [map_instant_convert]
    simp only [List.map_cons, listMax, listMin, List.length_map, List.length_cons]
    by_cases hd : 0 < (List.map (fun r => r.timestamp.instant) rs).foldl max r.timestamp.instant
        - (List.map (fun r => r.timestamp.instant) rs).foldl min r.timestamp.instant
    · simp [hd]
    · simp [hd]

/-- C1 witness: the amended theorem applied to a concrete one-row batch. -/
theorem rps_truncated_or_one_witness :
    ([mkRow "a" (.dt 0) 200] : List Row) ≠ []
    ∧ (calculate_metrics [mkRow "a" (.dt 0) 200]).1.requests_per_second =
        if 0 < specSpan [mkRow "a" (.dt 0) 200] then
          ⌊(([mkRow "a" (.dt 0) 200] : List Row).length : ℚ)
              / (specSpan [mkRow "a" (.dt 0) 200] : ℚ)⌋
        else 1 :=
  ⟨by simp, rps_truncated_or_one [mkRow "a" (.dt 0) 200] (by simp)⟩

/-- C2 counterexample: a one-row batch whose status is `301` yields
`error_rate = 100`, while the claim's formula (errors are statuses in
`[400, 599]` only) predicts `0`: 3xx rows **do** count as errors in the code. -/
theorem error_rate_claim_counterexample :
    (calculate_metrics [mkRow "a" (.dt 0) 301]).1.error_rate = 100
    ∧ round1 (100 * (errorRows400to599 [mkRow "a" (.dt 0) 301] : ℚ)
          / (([mkRow "a" (.dt 0) 301] : List Row).length : ℚ)) = 0 := by
  constructor
  · norm_num [calculate_metrics, listMax, listMin, firstSeen, TsCell.toDatetime, TsCell.instant,
      round1, pyRoundInt, mkRow]
  · norm_num [errorRows400to599, round1, pyRoundInt, mkRow]

/-- C2 (amended): for every non-empty batch, `error_rate` is 100 times the
number of rows whose status lies **outside** `[200, 299]` (so 1xx and 3xx rows
count as errors too) divided by the row count, rounded to one decimal place. -/
theorem error_rate_counts_non2xx (df : List Row) (h : df ≠ []) :
    (calculate_metrics df).1.error_rate
      = round1 (100 * (rowsOutsideSuccess df : ℚ) / (df.length : ℚ)) := by
  have hlen : 0 < df.length := List.length_pos.mpr h
  simp only [calculate_metrics, rowsOutsideSuccess, List.length_map, hlen, if_pos]
  rw [status_filter_convert df (fun s => decide (200 ≤ s ∧ s ≤ 299))]
  congr 1
  have hpart := List.length_eq_length_filter_add
    (l := df) (fun r => decide (200 ≤ r.status ∧ r.status ≤ 299))
  have hout : (df.filter fun r => decide (r.status < 200 ∨ 299 < r.status))
      = df.filter fun r => !decide (200 ≤ r.status ∧ r.status ≤ 299) := by
    apply List.filter_congr
    intro r _
    exact outside_eq_not_success r.status
  rw [hout]
  have hn : ((df.length : ℚ)) ≠ 0 := by positivity
  set a := (df.filter fun r => decide (200 ≤ r.status ∧ r.status ≤ 299)).length with ha
  set b := (df.filter fun r => !decide (200 ≤ r.status ∧ r.status ≤ 299)).length with hb
  have hq : (df.length : ℚ) = (a : ℚ) + (b : ℚ) := by exact_mod_cast congrArg Nat.cast hpart
  field_simp
  rw [hq]
  ring

/-- C2 witness: the amended theorem applied to a concrete one-row batch. -/
theorem error_rate_counts_non2xx_witness :
    ([mkRow "a" (.dt 0) 301] : List Row) ≠ []
    ∧ (calculate_metrics [mkRow "a" (.dt 0) 301]).1.error_rate
        = round1 (100 * (rowsOutsideSuccess [mkRow "a" (.dt 0) 301] : ℚ)
            / (([mkRow "a" (.dt 0) 301] : List Row).length : ℚ)) :=
  ⟨by simp, error_rate_counts_non2xx [mkRow "a" (.dt 0) 301] (by simp)⟩

/-- C8 counterexample: on an empty batch `calculate_metrics` does **not**
raise — no `EmptyBatchError` exists anywhere in the code — it returns the
metrics record `{requests_per_second: 1, error_rate: 0, unique_ips: 0}`
(`nan > 0` is false so the degenerate-span branch yields `1`, and the error
rate has an explicit `if len(df) > 0 else 0` guard). -/
theorem empty_batch_returns_record :
    (calculate_metrics []).1 = ⟨1, 0, 0⟩ := by
  norm_num [calculate_metrics, listMax, listMin, firstSeen, round1, pyRoundInt]

/-- C8 (amended): invoking the metrics computation on an empty batch returns
the record `{requests_per_second: 1, error_rate: 0, unique_ips: 0}` and leaves
the (empty) frame empty; no exception is raised. -/
theorem empty_batch_metrics_value :
    calculate_metrics [] = (⟨1, 0, 0⟩, []) := by
  norm_num [calculate_metrics, listMax, listMin, firstSeen, round1, pyRoundInt]

/-- C9 counterexample: `calculate_metrics` is **not** free of side effects on
its input: the statement `df['timestamp'] = pd.to_datetime(df['timestamp'])`
rewrites the caller's timestamp column in place, so a frame holding a raw
string cell comes back different. -/
theorem metrics_mutates_input_counterexample :
    (calculate_metrics [mkRow "a" (.str "2024-01-01 00:00:00 +0000" 1704067200) 200]).2
      ≠ [mkRow "a" (.str "2024-01-01 00:00:00 +0000" 1704067200) 200] := by
  simp [calculate_metrics, TsCell.toDatetime, mkRow]

/-- C9 (amended): the only mutation `calculate_metrics` performs on the
caller's data is the in-place conversion of the timestamp column to datetime;
every other column is untouched, re-running it on the already-converted frame
changes nothing, and the metrics record of the converted frame is the same —
so apart from the timestamp dtype the computation is a pure function of its
input. -/
theorem metrics_mutation_exactly_timestamp (df : List Row) :
    (calculate_metrics df).2 = df.map (fun r => { r with timestamp := r.timestamp.toDatetime })
    ∧ (calculate_metrics ((calculate_metrics df).2)).2 = (calculate_metrics df).2
    ∧ (calculate_metrics ((calculate_metrics df).2)).1 = (calculate_metrics df).1 := by
  have hconv : ((df.map fun r => ({ r with timestamp := r.timestamp.toDatetime } : Row)).map
      fun r => ({ r with timestamp := r.timestamp.toDatetime } : Row))
        = df.map fun r => ({ r with timestamp := r.timestamp.toDatetime } : Row) := by
    induction df with
    | nil => rfl
    | cons r rs ih => simp_all [toDatetime_toDatetime]
  refine ⟨rfl, ?_, ?_⟩
  · show ((df.map fun r => ({ r with timestamp := r.timestamp.toDatetime } : Row)).map
        fun r => ({ r with timestamp := r.timestamp.toDatetime } : Row))
      = df.map fun r => ({ r with timestamp := r.timestamp.toDatetime } : Row)
    exact hconv
  · simp only [calculate_metrics, hconv]

/-- The batch size field is never written after `__init__`: it stays `10`. -/
theorem cursorIter_batch_size (rows : List Row) (k : Nat) :
    (cursorIter rows k).batch_size = 10 := by
  induction k with
  | zero => rfl
  | succ k ih => simpa [cursorIter, get_next_batch] using ih

/-- C7: over a fixed file of 25 rows, four successive calls yield batches of
sizes 10, 10, 5, 10 with batch ids 1, 2, 3, 4; in general every call
increments the batch id by one (it never resets) and advances the position by
the batch size, wrapping to 0 once it reaches or passes the row count. -/
theorem cursor_trace_25 (rows : List Row) (h : rows.length = 25) :
    ((get_next_batch rows (cursorIter rows 0)).1.length = 10
      ∧ (get_next_batch rows (cursorIter rows 1)).1.length = 10
      ∧ (get_next_batch rows (cursorIter rows 2)).1.length = 5
      ∧ (get_next_batch rows (cursorIter rows 3)).1.length = 10)
    ∧ ((cursorIter rows 1).current_batch_id = 1
      ∧ (cursorIter rows 2).current_batch_id = 2
      ∧ (cursorIter rows 3).current_batch_id = 3
      ∧ (cursorIter rows 4).current_batch_id = 4)
    ∧ (∀ (file : List Row) (s : CursorState),
        (get_next_batch file s).2.current_batch_id = s.current_batch_id + 1
        ∧ (get_next_batch file s).2.current_index =
            (if file.length ≤ s.current_index + s.batch_size then 0
             else s.current_index + s.batch_size)) := by
  refine ⟨⟨?_, ?_, ?_, ?_⟩, ⟨?_, ?_, ?_, ?_⟩, fun file s => ⟨rfl, rfl⟩⟩ <;>
    simp [cursorIter, get_next_batch, initCursor, h]

/-- C7 witness: the trace theorem applied to a concrete 25-row file. -/
theorem cursor_trace_25_witness :
    (List.replicate 25 (mkRow "a" (.dt 0) 200)).length = 25
    ∧ ((get_next_batch (List.replicate 25 (mkRow "a" (.dt 0) 200))
          (cursorIter (List.replicate 25 (mkRow "a" (.dt 0) 200)) 0)).1.length = 10
      ∧ (get_next_batch (List.replicate 25 (mkRow "a" (.dt 0) 200))
          (cursorIter (List.replicate 25 (mkRow "a" (.dt 0) 200)) 1)).1.length = 10
      ∧ (get_next_batch (List.replicate 25 (mkRow "a" (.dt 0) 200))
          (cursorIter (List.replicate 25 (mkRow "a" (.dt 0) 200)) 2)).1.length = 5
      ∧ (get_next_batch (List.replicate 25 (mkRow "a" (.dt 0) 200))
          (cursorIter (List.replicate 25 (mkRow "a" (.dt 0) 200)) 3)).1.length = 10)
    ∧ ((cursorIter (List.replicate 25 (mkRow "a" (.dt 0) 200)) 1).current_batch_id = 1
      ∧ (cursorIter (List.replicate 25 (mkRow "a" (.dt 0) 200)) 2).current_batch_id = 2
      ∧ (cursorIter (List.replicate 25 (mkRow "a" (.dt 0) 200)) 3).current_batch_id = 3
      ∧ (cursorIter (List.replicate 25 (mkRow "a" (.dt 0) 200)) 4).current_batch_id = 4)
    ∧ (∀ (file : List Row) (s : CursorState),
        (get_next_batch file s).2.current_batch_id = s.current_batch_id + 1
        ∧ (get_next_batch file s).2.current_index =
            (if file.length ≤ s.current_index + s.batch_size then 0
             else s.current_index + s.batch_size)) :=
  ⟨by simp, cursor_trace_25 (List.replicate 25 (mkRow "a" (.dt 0) 200)) (by simp)⟩

/-- C10: over a fixed non-empty file, the cursor position is always strictly
below the row count (starting from the initial state and after any number of
calls), and consequently every returned batch is non-empty. -/
theorem cursor_position_invariant (rows : List Row) (h : rows ≠ []) (k : Nat) :
    (cursorIter rows k).current_index < rows.length
    ∧ 0 < (get_next_batch rows (cursorIter rows k)).1.length := by
  have hlen : 0 < rows.length := List.length_pos.mpr h
  have hidx : ∀ m, (cursorIter rows m).current_index < rows.length := by
    intro m
    induction m with
    | zero => simpa [cursorIter, initCursor] using hlen
    | succ m ih =>
      simp only [cursorIter, get_next_batch]
      split
      · exact hlen
      · omega
  refine ⟨hidx k, ?_⟩
  have hbs := cursorIter_batch_size rows k
  have hk := hidx k
  simp only [get_next_batch, List.length_take, List.length_drop, hbs]
  omega

/-- C10 witness: the invariant applied to a concrete one-row file after zero
calls. -/
theorem cursor_position_invariant_witness :
    ([mkRow "a" (.dt 0) 200] : List Row) ≠ []
    ∧ ((cursorIter [mkRow "a" (.dt 0) 200] 0).current_index
          < ([mkRow "a" (.dt 0) 200] : List Row).length
      ∧ 0 < (get_next_batch [mkRow "a" (.dt 0) 200]
              (cursorIter [mkRow "a" (.dt 0) 200] 0)).1.length) :=
  ⟨by simp, cursor_position_invariant [mkRow "a" (.dt 0) 200] (by simp) 0⟩

/-- The group loop never visits the skipped (`none`) keys: folding over all
keys equals folding over only the keys whose group yields a record. -/
theorem foldl_skip_filter (C : Collaborators) (uid : String) (df : List Row)
    (keys : List String) :
    ∀ acc : List Json,
      keys.foldl (stepGroup C uid df) acc
      = (keys.filter fun k =>
          (processGroup C uid (df.filter fun r => r.ip == k)).isSome).foldl
            (stepGroup C uid df) acc := by
  induction keys with
  | nil => intro acc; rfl
  | cons k ks ih =>
    intro acc
    cases hk : processGroup C uid (df.filter fun r => r.ip == k) with
    | some j => simp [List.filter_cons, hk, ih, stepGroup]
    | none => simp [List.filter_cons, hk, ih, stepGroup]

/-- If every group is skipped, the loop returns its accumulator unchanged. -/
theorem foldl_skip_all_none (C : Collaborators) (uid : String) (df : List Row)
    (h : ∀ group, processGroup C uid group = none) (keys : List String) :
    ∀ acc : List Json, keys.foldl (stepGroup C uid df) acc = acc := by
  induction keys with
  | nil => intro acc; rfl
  | cons k ks ih => intro acc; simp [stepGroup, h, ih]

/-- C3: the code returns schema-violating predictions.  With a decoded model
reply whose label is `"maybe"` (everything else schema-conforming), the
record is appended and returned — `JsonOutputParser` never validates against
the declared `ThreatPrediction` model.  With a reply holding only a
`prediction` key, the half-populated record is returned as well: the
`KeyError` raised while building the `save_interaction` arguments fires only
after `patterns.append(response)`. -/
theorem unvalidated_prediction_returned :
    ((analyze_patterns (constReply badPrediction) "hackathon" dfOne).map predictionOf
        = [some "maybe"]
      ∧ ∀ j ∈ analyze_patterns (constReply badPrediction) "hackathon" dfOne,
          validThreatPrediction j = false)
    ∧ ((analyze_patterns (constReply halfPrediction) "hackathon" dfOne).map predictionOf
        = [some "normal"]
      ∧ (analyze_patterns (constReply halfPrediction) "hackathon" dfOne).map
          (fun j => j.getField "reasoning") = [none]) := by
  refine ⟨⟨?_, ?_⟩, ?_, ?_⟩ <;>
    simp [analyze_patterns, analyzePatternsOn, stepGroup, groupbyKeys, firstSeen, dfOne, mkRow,
      List.insertionSort, List.orderedInsert, processGroup, create_log_summary,
      cellsAsDatetimes, TsCell.asDatetime, listMin, listMax, valueCounts,
      retrieve_context, constReply, badPrediction, halfPrediction, setField, predictionOf,
      Json.getField, lookupField, TsCell.toJson, validThreatPrediction]

/-- C4 counterexample: in a batch whose addresses are first seen in the order
`b`, `a`, the result list is ordered `a`, `b` (pandas `groupby` sorts keys),
not in first-seen order: running the same loop in first-seen order gives the
reverse.  The prediction label echoes each group's address. -/
theorem grouping_order_counterexample :
    firstSeen (dfTwo.map fun r => r.ip) = ["b", "a"]
    ∧ (analyze_patterns echoIpReply "hackathon" dfTwo).map predictionOf
        = [some "a", some "b"]
    ∧ (analyzePatternsOn echoIpReply "hackathon" dfTwo
          (firstSeen (dfTwo.map fun r => r.ip))).map predictionOf
        = [some "b", some "a"] := by
  have hba : ¬ (("b" : String) ≤ "a") := by simp; decide
  refine ⟨?_, ?_, ?_⟩ <;>
    simp [analyze_patterns, analyzePatternsOn, stepGroup, groupbyKeys, firstSeen, dfTwo, mkRow,
      List.insertionSort, List.orderedInsert, hba, processGroup, create_log_summary,
      cellsAsDatetimes, TsCell.asDatetime, listMin, listMax, valueCounts,
      retrieve_context, echoIpReply, setField, predictionOf,
      Json.getField, lookupField, TsCell.toJson]

/-- C4 (amended): the result list follows `df.groupby('ip')`'s key order,
which is the distinct source addresses sorted ascending — a permutation of
the first-seen key sequence, in sorted rather than first-seen order. -/
theorem grouping_order_sorted (C : Collaborators) (uid : String) (df : List Row) :
    analyze_patterns C uid df = analyzePatternsOn C uid df (groupbyKeys df)
    ∧ (groupbyKeys df).Perm (firstSeen (df.map fun r => r.ip))
    ∧ (groupbyKeys df).Sorted (fun a b => a ≤ b) := by
  refine ⟨rfl, ?_, ?_⟩
  · exact List.perm_insertionSort _ _
  · exact List.sorted_insertionSort _ _

/-- C5 counterexample: with a memory collaborator whose `search` raises and a
model whose decoded reply is fully schema-conforming, the batch result is
empty — the group is **not** classified with empty context; with a healthy
`search` the very same model reply does get classified, so the omission is
caused by the `search` failure alone. -/
theorem search_failure_counterexample :
    analyze_patterns (failingSearch goodPrediction) "hackathon" dfOne = []
    ∧ analyze_patterns (constReply goodPrediction) "hackathon" dfOne ≠ []
    ∧ validThreatPrediction goodPrediction = true := by
  refine ⟨?_, ?_, ?_⟩
  · simp [analyze_patterns, analyzePatternsOn, stepGroup, groupbyKeys, firstSeen, dfOne, mkRow,
      List.insertionSort, List.orderedInsert, processGroup, create_log_summary,
      cellsAsDatetimes, TsCell.asDatetime, listMin, listMax, valueCounts,
      retrieve_context, failingSearch]
  · simp [analyze_patterns, analyzePatternsOn, stepGroup, groupbyKeys, firstSeen, dfOne, mkRow,
      List.insertionSort, List.orderedInsert, processGroup, create_log_summary,
      cellsAsDatetimes, TsCell.asDatetime, listMin, listMax, valueCounts,
      retrieve_context, constReply, goodPrediction, setField, Json.getField, lookupField,
      TsCell.toJson]
  · simp [validThreatPrediction, goodPrediction, Json.getField, lookupField]
    norm_num

/-- C5 (amended): a raise in the memory collaborator's `search` is caught by
the per-group `except` handler, which skips the **whole group** — the group is
omitted from the result list (not classified with empty context); when every
`search` raises, the batch result is empty. -/
theorem search_failure_skips_group (C : Collaborators) (uid : String)
    (h : ∀ q, C.search q uid = Except.error ()) :
    (∀ group, processGroup C uid group = none)
    ∧ ∀ df, analyze_patterns C uid df = [] := by
  have hg : ∀ group, processGroup C uid group = none := by
    intro group
    cases group with
    | nil => rfl
    | cons g0 rest =>
      unfold processGroup
      cases hcs : create_log_summary (g0 :: rest) with
      | error e => rfl
      | ok s =>
        have hrc : retrieve_context C
            ("Previous log summary, IP: " ++ g0.ip ++ ", User Agent: " ++ g0.user_agent
              ++ ", Method: " ++ g0.method) uid = .error () := by
          unfold retrieve_context
          rw [h]
        simp only [hrc]
  refine ⟨hg, fun df => ?_⟩
  show analyzePatternsOn C uid df (groupbyKeys df) = []
  unfold analyzePatternsOn
  exact foldl_skip_all_none C uid df hg (groupbyKeys df) []

/-- C5 witness: the amended theorem applied to concrete collaborators whose
`search` always raises. -/
theorem search_failure_skips_group_witness :
    (∀ q, (failingSearch goodPrediction).search q "hackathon" = Except.error ())
    ∧ ((∀ group, processGroup (failingSearch goodPrediction) "hackathon" group = none)
      ∧ ∀ df, analyze_patterns (failingSearch goodPrediction) "hackathon" df = []) :=
  ⟨fun q => rfl, search_failure_skips_group (failingSearch goodPrediction) "hackathon"
    (fun q => rfl)⟩

/-- C6: a per-group failure yields partial results, never an escaping
exception.  First conjunct: when the model's reply for a group holds no
decodable JSON (`llmReply` gives `none` on the group's summary), that group's
record is `none` — the group is omitted.  Second conjunct: the batch result
equals the loop run over only the succeeding groups, so the remaining groups
are processed exactly as if the failing ones were absent.  (`analyze_patterns`
is a total function here because every per-group raise is caught by the
loop's `except` clause.) -/
theorem no_json_reply_partial_results (C : Collaborators) (uid : String) :
    (∀ (group : List Row) (s : GroupSummary),
        create_log_summary group = Except.ok s →
        (∀ ctx, C.llmReply s ctx = none) →
        processGroup C uid group = none)
    ∧ ∀ df, analyze_patterns C uid df
        = analyzePatternsOn C uid df
            ((groupbyKeys df).filter fun k =>
              (processGroup C uid (df.filter fun r => r.ip == k)).isSome) := by
  constructor
  · intro group s hcs hllm
    cases group with
    | nil => rfl
    | cons g0 rest =>
      unfold processGroup
      simp only [hcs]
      cases hrc : retrieve_context C
          ("Previous log summary, IP: " ++ g0.ip ++ ", User Agent: " ++ g0.user_agent
            ++ ", Method: " ++ g0.method) uid with
      | error e => simp only [hrc]
      | ok ctx => simp only [hrc, hllm ctx]
  · intro df
    show analyzePatternsOn C uid df (groupbyKeys df) = _
    unfold analyzePatternsOn
    exact foldl_skip_filter C uid df (groupbyKeys df) []

/-- C6 witness: the theorem applied to collaborators whose replies never hold
decodable JSON, on a concrete one-group batch. -/
theorem no_json_reply_partial_results_witness :
    create_log_summary dfOne = Except.ok sumOne
    ∧ processGroup noJsonReply "hackathon" dfOne = none
    ∧ analyze_patterns noJsonReply "hackathon" dfOne
        = analyzePatternsOn noJsonReply "hackathon" dfOne
            ((groupbyKeys dfOne).filter fun k =>
              (processGroup noJsonReply "hackathon"
                (dfOne.filter fun r => r.ip == k)).isSome) :=
  ⟨rfl,
    (no_json_reply_partial_results noJsonReply "hackathon").1 dfOne sumOne rfl
      (fun ctx => rfl),
    (no_json_reply_partial_results noJsonReply "hackathon").2 dfOne⟩

end ThreatCanvas
